import Mathlib

/-!
Shallow embedding of the Sequence audio backend server (the latest snapshot,
with the `requester` field). The server keeps a mutable triple
(`currentState`, `nowPlaying`, `queue`), resolves play-command input to a
track via a static song library, and fans serialized state out to WebSocket
subscribers. Here the mutable state is a `ServerState` record, each handler
is a pure function returning the new state together with the list of
messages broadcast to all subscribers, and optional / possibly-absent JSON
string fields are `Option String` (with JavaScript truthiness made explicit).
-/

namespace SeqAudio

/-- One playable item as built by `buildTrack`: `{ url, text, requester }`. -/
structure Track where
  url : String
  text : String
  requester : String
deriving DecidableEq

/-- The flat `currentState` object `{ action, url, text, requester }`;
`null` fields are `none`. -/
structure FlatState where
  action : String
  url : Option String
  text : Option String
  requester : Option String
deriving DecidableEq

/-- The server's mutable playback state: `currentState`, `nowPlaying`
(`null` is `none`) and the FIFO `queue`. -/
structure ServerState where
  currentState : FlatState
  nowPlaying : Option Track
  queue : List Track
deriving DecidableEq

/-- The `{ action: "stop", url: null, text: null, requester: null }` object. -/
def stopFlat : FlatState :=
  { action := "stop", url := none, text := none, requester := none }

/-- State at process start: stopped, nothing playing, empty queue. -/
def initialState : ServerState :=
  { currentState := stopFlat, nowPlaying := none, queue := [] }

/-- One entry of the serialized queue snapshot. `broadcastState` maps the
queue with `t => ({ text: t.text, requester: t.requester })` while the
connection handler maps it with `t => ({ text: t.text })`; an absent
`requester` key is `none`. -/
structure QueueEntry where
  text : String
  requester : Option String
deriving DecidableEq

/-- A message sent to subscribers over the WebSocket. -/
inductive OutMsg where
  | flat (st : FlatState)
  | queueSnap (nowPlaying : Option Track) (queue : List QueueEntry)
  | error (text : String)
deriving DecidableEq

/-- Messages sent by `broadcastState()`: the flat `currentState` followed by
`{ action: "queue", nowPlaying, queue: queue.map(t => ({ text, requester })) }`. -/
def broadcastStateMsgs (s : ServerState) : List OutMsg :=
  [OutMsg.flat s.currentState,
   OutMsg.queueSnap s.nowPlaying (s.queue.map fun t => ⟨t.text, some t.requester⟩)]

/-- The two synchronization messages sent to a freshly connected socket:
the flat `currentState` and `{ action: "queue", nowPlaying,
queue: queue.map(t => ({ text: t.text })) }`. -/
def syncMessages (s : ServerState) : List OutMsg :=
  [OutMsg.flat s.currentState,
   OutMsg.queueSnap s.nowPlaying (s.queue.map fun t => ⟨t.text, none⟩)]

/-- JavaScript `s.trim()` (whitespace stripped from both ends), written over
the character list so that it evaluates by kernel reduction. -/
def jsTrim (s : String) : String :=
  ⟨List.reverse (List.dropWhile Char.isWhitespace
     (List.reverse (List.dropWhile Char.isWhitespace s.data)))⟩

/-- JavaScript `s.toLowerCase()`, written over the character list. -/
def jsToLower (s : String) : String := ⟨s.data.map Char.toLower⟩

/-- JavaScript `s.startsWith(p)`, written over the character lists. -/
def jsStartsWith (s p : String) : Bool := List.isPrefixOf p.data s.data

/-- JavaScript `opt || d` for a string-or-absent value: the default is taken
when the value is absent or the empty string (both falsy). -/
def jsStrOr (o : Option String) (d : String) : String :=
  match o with
  | some s => if s = "" then d else s
  | none => d

/-- JavaScript truthiness of a string-or-absent value: `false` for absent and
for the empty string. -/
def jsTruthyStr (o : Option String) : Bool :=
  match o with
  | some s => s ≠ ""
  | none => false

/-- The test `typeof v === "string" && v.trim()`: present and not
whitespace-only. -/
def nonBlankOpt (o : Option String) : Bool :=
  match o with
  | some s => jsTrim s ≠ ""
  | none => false

/-- The test `typeof url === "string" && url.startsWith("http")`. -/
def isHttpUrl (o : Option String) : Bool :=
  match o with
  | some u => jsStartsWith u "http"
  | none => false

/-- Key normalization `String(s || "").toLowerCase().trim()`. -/
def norm (s : String) : String := jsTrim (jsToLower s)

/-- One `songs.json` entry: `{ url, title }` (`title` may be absent). -/
structure SongEntry where
  url : String
  title : Option String
deriving DecidableEq

/-- The loaded song library, as the lookup function `SONGS[k]`. -/
def Songs := String → Option SongEntry

/-- Library lookup `SONGS[norm(query)] || null`. -/
def resolveSong (songs : Songs) (query : String) : Option SongEntry :=
  songs (norm query)

/-- Authorization check: `if (!RADIO_KEY) return true; return data && data.key === RADIO_KEY`.
An unset key is the empty string (`process.env.RADIO_KEY || ""`). -/
def isAuthorized (radioKey : String) (key : Option String) : Bool :=
  if radioKey = "" then true
  else match key with
    | some k => k = radioKey
    | none => false

/-- Build input `{ url, query, text, requester }` for `buildTrack`; absent
fields are `none`. -/
structure BuildInput where
  url : Option String
  query : Option String
  text : Option String
  requester : Option String
deriving DecidableEq

/-- Steps 2 and 3 of `buildTrack`: choose the search term
(`let search = query; if (!search && typeof url === "string" && url.trim()) search = url;`)
and, when it is a non-blank string, look it up in the library. -/
def buildTrackSearch (songs : Songs) (inp : BuildInput) (reqBy : String) : Option Track :=
  let search : Option String :=
    if jsTruthyStr inp.query then inp.query
    else if nonBlankOpt inp.url then inp.url
    else inp.query
  match search with
  | some v =>
    if jsTrim v ≠ "" then
      match resolveSong songs v with
      | some found =>
        some { url := found.url,
               text := jsStrOr found.title
                         (match inp.text with
                          | some t => t
                          | none => "Now playing"),
               requester := reqBy }
      | none => none
    else none
  | none => none

/-- The track builder `buildTrack({ url, query, text, requester })`: a direct
link when `url` starts with `"http"`, otherwise a library lookup, otherwise
`null`. -/
def buildTrack (songs : Songs) (inp : BuildInput) : Option Track :=
  let reqBy := jsStrOr inp.requester "Server"
  match inp.url with
  | some u =>
    if jsStartsWith u "http" then
      some { url := u,
             text := match inp.text with
                     | some t => if jsTrim t ≠ "" then t else "Now playing"
                     | none => "Now playing",
             requester := reqBy }
    else buildTrackSearch songs inp reqBy
  | none => buildTrackSearch songs inp reqBy

/-- `startTrack(track)`: set `nowPlaying` and `currentState`, then broadcast
the new state. -/
def startTrack (s : ServerState) (track : Track) : ServerState × List OutMsg :=
  let s2 : ServerState :=
    { s with nowPlaying := some track,
             currentState := { action := "play", url := some track.url,
                               text := some track.text,
                               requester := some track.requester } }
  (s2, broadcastStateMsgs s2)

/-- `nextTrack()`: on an empty queue clear `nowPlaying`, reset `currentState`
to stop and broadcast; otherwise shift the queue head and start it. -/
def nextTrack (s : ServerState) : ServerState × List OutMsg :=
  match s.queue with
  | [] =>
    let s2 : ServerState := { s with nowPlaying := none, currentState := stopFlat }
    (s2, broadcastStateMsgs s2)
  | t :: rest => startTrack { s with queue := rest } t

/-- `enqueueOrPlay(track)`: start immediately when nothing is playing,
otherwise push onto the queue tail and broadcast. -/
def enqueueOrPlay (s : ServerState) (track : Track) : ServerState × List OutMsg :=
  match s.nowPlaying with
  | none => startTrack s track
  | some _ =>
    let s2 : ServerState := { s with queue := s.queue ++ [track] }
    (s2, broadcastStateMsgs s2)

/-- The shared stop behaviour of `POST /stop` and the WebSocket `stop`
action: clear everything, reset `currentState`, broadcast. -/
def stopTransition (_s : ServerState) : ServerState × List OutMsg :=
  let s2 : ServerState := { currentState := stopFlat, nowPlaying := none, queue := [] }
  (s2, broadcastStateMsgs s2)

/-- Result of a REST handler: `res.json({success:true})`,
`res.status(403)...` or `res.status(400)...`. -/
inductive RestResult where
  | ok
  | unauthorized
  | badRequest
deriving DecidableEq

/-- Body of `POST /play`: `{ url, query, text, key, requester }`. -/
structure PlayBody where
  url : Option String
  query : Option String
  text : Option String
  key : Option String
  requester : Option String
deriving DecidableEq

/-- `app.post("/play")`: auth check, then `buildTrack`, then `enqueueOrPlay`. -/
def handleRestPlay (radioKey : String) (songs : Songs) (s : ServerState)
    (body : PlayBody) : RestResult × ServerState × List OutMsg :=
  if ¬ isAuthorized radioKey body.key then (RestResult.unauthorized, s, [])
  else
    match buildTrack songs ⟨body.url, body.query, body.text, body.requester⟩ with
    | none => (RestResult.badRequest, s, [])
    | some track => (RestResult.ok, enqueueOrPlay s track)

/-- `app.post("/stop")`: auth check, then clear state and broadcast. -/
def handleRestStop (radioKey : String) (s : ServerState) (key : Option String) :
    RestResult × ServerState × List OutMsg :=
  if ¬ isAuthorized radioKey key then (RestResult.unauthorized, s, [])
  else (RestResult.ok, stopTransition s)

/-- `app.post("/skip")`: auth check, then `nextTrack()`. -/
def handleRestSkip (radioKey : String) (s : ServerState) (key : Option String) :
    RestResult × ServerState × List OutMsg :=
  if ¬ isAuthorized radioKey key then (RestResult.unauthorized, s, [])
  else (RestResult.ok, nextTrack s)

/-- An inbound WebSocket message
`{ action, url?, query?, text?, requester?, key? }`. -/
structure WsMessage where
  action : String
  url : Option String
  query : Option String
  text : Option String
  requester : Option String
  key : Option String
deriving DecidableEq

/-- The `socket.on("message")` dispatcher: the `ended` branch (no auth, race
check against `nowPlaying.url`), then the auth-gated `play`, `stop`, `skip`
and `queueList` branches. Unknown actions fall through with no effect. -/
def handleWsMessage (radioKey : String) (songs : Songs) (s : ServerState)
    (d : WsMessage) : ServerState × List OutMsg :=
  if d.action = "ended" then
    match s.nowPlaying with
    | some np => if d.url = some np.url then nextTrack s else (s, [])
    | none => (s, [])
  else if d.action = "play" then
    if ¬ isAuthorized radioKey d.key then (s, [])
    else
      match buildTrack songs ⟨d.url, d.query, d.text, d.requester⟩ with
      | none => (s, [OutMsg.error "Song not found / Invalid Payload"])
      | some track => enqueueOrPlay s track
  else if d.action = "stop" then
    if ¬ isAuthorized radioKey d.key then (s, []) else stopTransition s
  else if d.action = "skip" then
    if ¬ isAuthorized radioKey d.key then (s, []) else nextTrack s
  else if d.action = "queueList" then
    if ¬ isAuthorized radioKey d.key then (s, []) else (s, [])
  else (s, [])

/-- Every way a command can reach the playback state: the three REST
endpoints and any WebSocket message. -/
inductive Command where
  | restPlay (body : PlayBody)
  | restStop (key : Option String)
  | restSkip (key : Option String)
  | ws (d : WsMessage)

/-- Run one command against the state, discarding the transport-level
response and keeping state plus broadcasts. -/
def runCommand (radioKey : String) (songs : Songs) (s : ServerState) :
    Command → ServerState × List OutMsg
  | Command.restPlay body => (handleRestPlay radioKey songs s body).2
  | Command.restStop key => (handleRestStop radioKey s key).2
  | Command.restSkip key => (handleRestSkip radioKey s key).2
  | Command.ws d => handleWsMessage radioKey songs s d

/-- Run a sequence of commands, keeping only the state. -/
def runCommands (radioKey : String) (songs : Songs) (s : ServerState)
    (cs : List Command) : ServerState :=
  cs.foldl (fun st c => (runCommand radioKey songs st c).1) s

/-- Fold `enqueueOrPlay` over a list of tracks, keeping only the state. -/
def runEnqueueAll (s : ServerState) (ts : List Track) : ServerState :=
  ts.foldl (fun st t => (enqueueOrPlay st t).1) s

/-! Concrete data used in witnesses and counterexamples. -/

/-- Sample track with a direct link. -/
def trackA : Track := { url := "http://x/a.mp3", text := "A side", requester := "Alice" }

/-- Second sample track. -/
def trackB : Track := { url := "http://x/b.mp3", text := "B side", requester := "Bob" }

/-- Sample song library with a single entry under the key `cradles`. -/
def songs0 : Songs := fun k =>
  if k = "cradles" then some { url := "http://x/cradles.mp3", title := some "Cradles" }
  else none

/-- State reached from startup by playing `trackA`. -/
def statePlayingA : ServerState := (enqueueOrPlay initialState trackA).1

/-- State reached from startup by playing `trackA` and then queueing
`trackB`. -/
def statePlayingAB : ServerState := runEnqueueAll initialState [trackA, trackB]

/-! Theorems. -/

/-- C1: with `nowPlaying` set, an `ended` message whose `url` differs from
the current track's url leaves the state unchanged and broadcasts nothing;
an `ended` message carrying exactly the current url performs exactly one
`nextTrack` advance; with `nowPlaying` empty, every `ended` message is a
no-op. -/
theorem ended_signal_race_rule (radioKey : String) (songs : Songs)
    (s : ServerState) (d : WsMessage) (hact : d.action = "ended") :
    (∀ np, s.nowPlaying = some np →
      (d.url ≠ some np.url → handleWsMessage radioKey songs s d = (s, [])) ∧
      (d.url = some np.url → handleWsMessage radioKey songs s d = nextTrack s)) ∧
    (s.nowPlaying = none → handleWsMessage radioKey songs s d = (s, [])) := by
  constructor
  · intro np hnp
    constructor
    · intro hne
      simp [handleWsMessage, hact, hnp, hne]
    · intro heq
      simp [handleWsMessage, hact, hnp, heq]
  · intro hnone
    simp [handleWsMessage, hact, hnone]

/-- Witness for C1: a stale `ended` signal for a different url is ignored
while `trackA` is playing. -/
theorem ended_signal_race_rule_witness :
    handleWsMessage "" songs0 statePlayingA
      { action := "ended", url := some "http://x/other.mp3", query := none,
        text := none, requester := none, key := none } = (statePlayingA, []) :=
  ((ended_signal_race_rule "" songs0 statePlayingA
      { action := "ended", url := some "http://x/other.mp3", query := none,
        text := none, requester := none, key := none } rfl).1 trackA rfl).1
    (by decide)

/-- Counterexample for C2: right after the first `enqueueOrPlay` from the
initial state, the queue is empty while `nowPlaying` is set, so the claimed
equivalence "nowPlaying is empty iff queue is empty" is false. -/
theorem playing_with_empty_queue :
    ¬ (((enqueueOrPlay initialState trackA).1.nowPlaying = none) ↔
       ((enqueueOrPlay initialState trackA).1.queue = [])) := by
  decide

/-- C2 (amended): immediately after any of the three transitions
(`enqueueOrPlay`, `nextTrack`, stop), an empty `nowPlaying` forces an empty
queue — the machine never leaves a non-empty queue with an empty now-playing
slot. -/
theorem no_orphan_queue (s : ServerState) (t : Track) :
    ((enqueueOrPlay s t).1.nowPlaying = none → (enqueueOrPlay s t).1.queue = []) ∧
    ((nextTrack s).1.nowPlaying = none → (nextTrack s).1.queue = []) ∧
    ((stopTransition s).1.nowPlaying = none → (stopTransition s).1.queue = []) := by
  obtain ⟨cs, np, q⟩ := s
  refine ⟨?_, ?_, ?_⟩
  · cases np with
    | none => simp [enqueueOrPlay, startTrack]
    | some t0 => simp [enqueueOrPlay]
  · cases q with
    | nil => simp [nextTrack]
    | cons t0 rest => simp [nextTrack, startTrack]
  · simp [stopTransition]

/-- Witness for C2 (amended): advancing the empty initial state leaves an
empty queue. -/
theorem no_orphan_queue_witness :
    (nextTrack initialState).1.queue = [] :=
  (no_orphan_queue initialState trackA).2.1 rfl

/-- Chaining step: folding `enqueueOrPlay` over `t :: rest` first applies it
to `t`. -/
theorem runEnqueueAll_cons (s : ServerState) (t : Track) (rest : List Track) :
    runEnqueueAll s (t :: rest) = runEnqueueAll (enqueueOrPlay s t).1 rest := rfl

/-- While something is playing, a sequence of `enqueueOrPlay` calls keeps
`nowPlaying` fixed and appends all tracks to the queue tail in order. -/
theorem runEnqueueAll_playing (ts : List Track) :
    ∀ (s : ServerState) (np : Track), s.nowPlaying = some np →
      (runEnqueueAll s ts).nowPlaying = some np ∧
      (runEnqueueAll s ts).queue = s.queue ++ ts := by
  induction ts with
  | nil =>
    intro s np h
    exact ⟨h, by simp [runEnqueueAll]⟩
  | cons t rest ih =>
    intro s np h
    rw [runEnqueueAll_cons]
    have h1 : (enqueueOrPlay s t).1.nowPlaying = some np := by
      simp [enqueueOrPlay, h]
    have h2 : (enqueueOrPlay s t).1.queue = s.queue ++ [t] := by
      simp [enqueueOrPlay, h]
    obtain ⟨ha, hb⟩ := ih (enqueueOrPlay s t).1 np h1
    refine ⟨ha, ?_⟩
    rw [hb, h2, List.append_assoc]
    rfl

/-- C3: starting from an idle state with an empty queue, the first
`enqueueOrPlay` makes its track the `nowPlaying` and leaves the queue empty;
running a whole sequence keeps the first track playing and queues the rest
in order; and in general any call made while a track is playing appends to
the queue tail without touching `nowPlaying`. -/
theorem enqueueOrStart_sequence (s : ServerState) (t : Track) (rest : List Track)
    (hnp : s.nowPlaying = none) (hq : s.queue = []) :
    (enqueueOrPlay s t).1.nowPlaying = some t ∧
    (enqueueOrPlay s t).1.queue = [] ∧
    (runEnqueueAll s (t :: rest)).nowPlaying = some t ∧
    (runEnqueueAll s (t :: rest)).queue = rest ∧
    (∀ s2 np u, s2.nowPlaying = some np →
      (enqueueOrPlay s2 u).1.nowPlaying = some np ∧
      (enqueueOrPlay s2 u).1.queue = s2.queue ++ [u]) := by
  have hfirstNp : (enqueueOrPlay s t).1.nowPlaying = some t := by
    simp [enqueueOrPlay, startTrack, hnp]
  have hfirstQ : (enqueueOrPlay s t).1.queue = [] := by
    simp [enqueueOrPlay, startTrack, hnp, hq]
  refine ⟨hfirstNp, hfirstQ, ?_, ?_, ?_⟩
  · rw [runEnqueueAll_cons]
    exact (runEnqueueAll_playing rest _ t hfirstNp).1
  · rw [runEnqueueAll_cons]
    rw [(runEnqueueAll_playing rest _ t hfirstNp).2, hfirstQ]
    rfl
  · intro s2 np u h
    exact ⟨by simp [enqueueOrPlay, h], by simp [enqueueOrPlay, h]⟩

/-- Witness for C3: playing `trackA` then `trackB` from startup leaves
`trackA` playing with `trackB` queued. -/
theorem enqueueOrStart_sequence_witness :
    (runEnqueueAll initialState [trackA, trackB]).nowPlaying = some trackA ∧
    (runEnqueueAll initialState [trackA, trackB]).queue = [trackB] :=
  ⟨(enqueueOrStart_sequence initialState trackA [trackB] rfl rfl).2.2.1,
   (enqueueOrStart_sequence initialState trackA [trackB] rfl rfl).2.2.2.1⟩

/-- C4: on a non-empty queue, `nextTrack` pops exactly the head, makes it the
new `nowPlaying` and keeps the remaining queue in order; on an empty queue it
clears `nowPlaying` and resets the flat state to stopped. -/
theorem advance_pops_head (s : ServerState) :
    (∀ t rest, s.queue = t :: rest →
      (nextTrack s).1.nowPlaying = some t ∧ (nextTrack s).1.queue = rest) ∧
    (s.queue = [] →
      (nextTrack s).1.nowPlaying = none ∧ (nextTrack s).1.queue = [] ∧
      (nextTrack s).1.currentState = stopFlat) := by
  obtain ⟨cs, np, q⟩ := s
  constructor
  · rintro t rest rfl
    exact ⟨by simp [nextTrack, startTrack], by simp [nextTrack, startTrack]⟩
  · rintro rfl
    refine ⟨by simp [nextTrack], by simp [nextTrack], by simp [nextTrack]⟩

/-- Witness for C4: advancing with `trackB` queued starts `trackB` and
empties the queue. -/
theorem advance_pops_head_witness :
    (nextTrack statePlayingAB).1.nowPlaying = some trackB ∧
    (nextTrack statePlayingAB).1.queue = [] :=
  (advance_pops_head statePlayingAB).1 trackB [] rfl

/-- C5: with no key configured every credential is authorized (fail-open);
with a key configured, authorization succeeds exactly when the supplied
credential equals it; every gated command (`play`, `stop`, `skip`,
`queueList` over the socket, and the three REST endpoints) is dropped or
rejected when the check fails; and the `ended` signal is handled identically
whatever credential the message carries, in both configurations. -/
theorem command_authorization (radioKey : String) :
    (radioKey = "" → ∀ key, isAuthorized radioKey key = true) ∧
    (radioKey ≠ "" → ∀ key, isAuthorized radioKey key = true ↔ key = some radioKey) ∧
    (∀ (songs : Songs) (s : ServerState) (d : WsMessage),
      (d.action = "play" ∨ d.action = "stop" ∨ d.action = "skip" ∨
        d.action = "queueList") →
      isAuthorized radioKey d.key = false →
      handleWsMessage radioKey songs s d = (s, [])) ∧
    (∀ (songs : Songs) (s : ServerState) (body : PlayBody) (key : Option String),
      isAuthorized radioKey body.key = false →
      isAuthorized radioKey key = false →
      handleRestPlay radioKey songs s body = (RestResult.unauthorized, s, []) ∧
      handleRestStop radioKey s key = (RestResult.unauthorized, s, []) ∧
      handleRestSkip radioKey s key = (RestResult.unauthorized, s, [])) ∧
    (∀ (songs : Songs) (s : ServerState) (d : WsMessage) (k1 k2 : Option String),
      d.action = "ended" →
      handleWsMessage radioKey songs s { d with key := k1 } =
        handleWsMessage radioKey songs s { d with key := k2 }) := by
  refine ⟨?_, ?_, ?_, ?_, ?_⟩
  · intro h key
    simp [isAuthorized, h]
  · intro h key
    cases key with
    | none => simp [isAuthorized, h]
    | some k => simp [isAuthorized, h]
  · intro songs s d hact hauth
    rcases hact with h | h | h | h <;> simp [handleWsMessage, h, hauth]
  · intro songs s body key h1 h2
    exact ⟨by simp [handleRestPlay, h1], by simp [handleRestStop, h2],
           by simp [handleRestSkip, h2]⟩
  · intro songs s d k1 k2 hact
    simp [handleWsMessage, hact]

/-- Witness for C5: with key `secret`, the matching credential passes the
check and a credential-less `skip` message is dropped with the state
untouched. -/
theorem command_authorization_witness :
    isAuthorized "secret" (some "secret") = true ∧
    handleWsMessage "secret" songs0 statePlayingA
      { action := "skip", url := none, query := none, text := none,
        requester := none, key := none } = (statePlayingA, []) :=
  ⟨((command_authorization "secret").2.1 (by decide) (some "secret")).mpr rfl,
   (command_authorization "secret").2.2.1 songs0 statePlayingA
     { action := "skip", url := none, query := none, text := none,
       requester := none, key := none }
     (Or.inr (Or.inr (Or.inl rfl))) rfl⟩

/-- C6: when a key is configured and a REST `play` request carries a missing
or wrong credential, the handler answers 403 unauthorized, leaves the
playback state untouched and broadcasts nothing. -/
theorem unauthorized_play_rejected (radioKey : String) (songs : Songs)
    (s : ServerState) (body : PlayBody)
    (hcfg : radioKey ≠ "") (hbad : body.key ≠ some radioKey) :
    handleRestPlay radioKey songs s body = (RestResult.unauthorized, s, []) := by
  have hauth : isAuthorized radioKey body.key = false := by
    cases hk : body.key with
    | none => simp [isAuthorized, hcfg]
    | some k =>
      have hne : k ≠ radioKey := by
        intro he
        exact hbad (by rw [hk, he])
      simp [isAuthorized, hcfg, hne]
  simp [handleRestPlay, hauth]

/-- Witness for C6: a credential-less REST play against key `secret` is
rejected without touching the state. -/
theorem unauthorized_play_rejected_witness :
    handleRestPlay "secret" songs0 statePlayingA
      { url := some "http://x/c.mp3", query := none, text := none,
        key := none, requester := none } =
      (RestResult.unauthorized, statePlayingA, []) :=
  unauthorized_play_rejected "secret" songs0 statePlayingA
    { url := some "http://x/c.mp3", query := none, text := none,
      key := none, requester := none }
    (by decide) (by decide)

/-- C8: for an authorized `play` whose input the track builder cannot
resolve, the REST handler answers 400 with no broadcast, while the socket
handler broadcasts one error notification to all subscribers; both leave the
playback state unchanged. -/
theorem unresolved_play_handling (radioKey : String) (songs : Songs)
    (s : ServerState) :
    (∀ body : PlayBody, isAuthorized radioKey body.key = true →
      buildTrack songs ⟨body.url, body.query, body.text, body.requester⟩ = none →
      handleRestPlay radioKey songs s body = (RestResult.badRequest, s, [])) ∧
    (∀ d : WsMessage, d.action = "play" → isAuthorized radioKey d.key = true →
      buildTrack songs ⟨d.url, d.query, d.text, d.requester⟩ = none →
      handleWsMessage radioKey songs s d =
        (s, [OutMsg.error "Song not found / Invalid Payload"])) := by
  constructor
  · intro body hauth hbuild
    simp [handleRestPlay, hauth, hbuild]
  · intro d hact hauth hbuild
    simp [handleWsMessage, hact, hauth, hbuild]

/-- Result the spec expects from consulting the library on search term `v`:
on a hit the display text is the catalog title, falling back to the input's
`text`, falling back to the default; on a miss, unresolved. -/
def trackFromLookup (songs : Songs) (v : String) (inp : BuildInput) : Option Track :=
  match resolveSong songs v with
  | some found =>
    some { url := found.url,
           text := jsStrOr found.title
                     (match inp.text with
                      | some t => t
                      | none => "Now playing"),
           requester := jsStrOr inp.requester "Server" }
  | none => none

/-- Build input with a non-http bare-name location and a whitespace-only
query field. -/
def blankQueryInput : BuildInput :=
  { url := some "cradles", query := some " ", text := none, requester := none }

/-- When the location is absent or not http-prefixed, `buildTrack` reduces to
its search phase. -/
theorem buildTrack_not_http (songs : Songs) (inp : BuildInput)
    (hurl : isHttpUrl inp.url = false) :
    buildTrack songs inp =
      buildTrackSearch songs inp (jsStrOr inp.requester "Server") := by
  cases hu : inp.url with
  | none => simp [buildTrack, hu]
  | some u =>
    have hs : jsStartsWith u "http" = false := by
      simpa [isHttpUrl, hu] using hurl
    simp [buildTrack, hu, hs]

/-- Counterexample for C7: with location `"cradles"` (present, non-blank,
not scheme-prefixed) and a present but whitespace-only query, the claimed
bare-name fallback would consult the catalog on the location and hit, yet
`buildTrack` never reaches the lookup and returns unresolved. -/
theorem blank_query_blocks_fallback :
    isHttpUrl blankQueryInput.url = false ∧
    nonBlankOpt blankQueryInput.query = false ∧
    nonBlankOpt blankQueryInput.url = true ∧
    resolveSong songs0 "cradles" =
      some { url := "http://x/cradles.mp3", title := some "Cradles" } ∧
    buildTrack songs0 blankQueryInput = none := by
  refine ⟨rfl, by decide, by decide, rfl, by decide⟩

/-- C7 (amended): for build input whose location is absent, blank or not
scheme-prefixed: a present non-blank query is looked up in the catalog; when
the query is absent or empty, a present non-blank location is looked up
instead (bare-name fallback), and when that location is also blank or absent
the result is unresolved; a present but whitespace-only query blocks the
fallback and forces unresolved. The lookup result carries the catalog title,
falling back to `text`, falling back to the default, and a miss is
unresolved (`trackFromLookup`). -/
theorem buildTrack_bare_name_fallback (songs : Songs) (inp : BuildInput)
    (hurl : isHttpUrl inp.url = false) :
    (∀ q, inp.query = some q → jsTrim q ≠ "" →
      buildTrack songs inp = trackFromLookup songs q inp) ∧
    ((inp.query = none ∨ inp.query = some "") →
      (∀ u, inp.url = some u → jsTrim u ≠ "" →
        buildTrack songs inp = trackFromLookup songs u inp) ∧
      (nonBlankOpt inp.url = false → buildTrack songs inp = none)) ∧
    (∀ q, inp.query = some q → q ≠ "" → jsTrim q = "" →
      buildTrack songs inp = none) := by
  have hb := buildTrack_not_http songs inp hurl
  refine ⟨?_, ?_, ?_⟩
  · intro q hq hqt
    have hqe : q ≠ "" := by
      intro he
      exact hqt (by rw [he]; rfl)
    rw [hb]
    simp only [buildTrackSearch, trackFromLookup, hq]
    simp [jsTruthyStr, hqe, hqt]
  · intro hqcase
    have hqf : jsTruthyStr inp.query = false := by
      rcases hqcase with h | h <;> simp [jsTruthyStr, h]
    constructor
    · intro u hu hut
      rw [hb]
      have hnbu : nonBlankOpt (some u) = true := by
        simp [nonBlankOpt, hut]
      simp only [buildTrackSearch, trackFromLookup, hqf, hu]
      simp [hnbu, hut]
    · intro hnb
      rw [hb]
      rcases hqcase with h | h
      · simp [buildTrackSearch, hqf, hnb, h]
      · simp [buildTrackSearch, hqf, hnb, h, show jsTrim "" = "" from rfl]
  · intro q hq hqe hqt
    rw [hb]
    have hqT : jsTruthyStr (some q) = true := by
      simp [jsTruthyStr, hqe]
    simp [buildTrackSearch, hq, hqT, hqt]

/-- Witness for C7 (amended): the bare name `cradles` with no query falls
back to a library lookup and resolves to the catalog entry with the catalog
title and the default requester. -/
theorem buildTrack_bare_name_fallback_witness :
    buildTrack songs0
      { url := some "cradles", query := none, text := none, requester := none } =
      some { url := "http://x/cradles.mp3", text := "Cradles",
             requester := "Server" } := by
  have h := ((buildTrack_bare_name_fallback songs0
      { url := some "cradles", query := none, text := none, requester := none }
      rfl).2.1 (Or.inl rfl)).1 "cradles" rfl (by decide)
  rw [h]
  rfl

/-- Witness for C8: a query that misses the one-entry library yields a 400
rejection with no broadcast and no state change. -/
theorem unresolved_play_handling_witness :
    handleRestPlay "" songs0 statePlayingA
      { url := none, query := some "nosuch", text := none, key := none,
        requester := none } = (RestResult.badRequest, statePlayingA, []) :=
  (unresolved_play_handling "" songs0 statePlayingA).1
    { url := none, query := some "nosuch", text := none, key := none,
      requester := none }
    rfl (by decide)

/-- C9, evaluating the code at the failing input: with `trackA` playing and
`trackB` queued, the flat-state message sent to a freshly registered
connection equals the one `broadcastState` sends, but the queue snapshots
differ — the connection-time snapshot omits the `requester` field of the
queued entry that `broadcastState` includes, so the two message sequences
are not equal. -/
theorem sync_snapshot_drops_requester :
    (syncMessages statePlayingAB).head? = (broadcastStateMsgs statePlayingAB).head? ∧
    List.drop 1 (syncMessages statePlayingAB) =
      [OutMsg.queueSnap (some trackA) [{ text := "B side", requester := none }]] ∧
    List.drop 1 (broadcastStateMsgs statePlayingAB) =
      [OutMsg.queueSnap (some trackA) [{ text := "B side", requester := some "Bob" }]] ∧
    syncMessages statePlayingAB ≠ broadcastStateMsgs statePlayingAB := by
  refine ⟨rfl, by decide, by decide, by decide⟩

/-- The flat `currentState` agrees with `nowPlaying`: the playing track's
fields when one is set, the all-null stop object when none is. -/
def mirrors (s : ServerState) : Prop :=
  (∀ t, s.nowPlaying = some t →
    s.currentState = { action := "play", url := some t.url, text := some t.text,
                       requester := some t.requester }) ∧
  (s.nowPlaying = none → s.currentState = stopFlat)

/-- The startup state mirrors correctly. -/
theorem mirrors_initial : mirrors initialState := by
  constructor
  · intro t ht
    exact nomatch ht
  · intro _
    rfl

/-- `startTrack` establishes the mirror unconditionally. -/
theorem mirrors_startTrack (s : ServerState) (t : Track) :
    mirrors (startTrack s t).1 := by
  constructor
  · intro u hu
    have he : t = u := by simpa [startTrack] using hu
    subst he
    rfl
  · intro hn
    simp [startTrack] at hn

/-- `nextTrack` establishes the mirror unconditionally. -/
theorem mirrors_nextTrack (s : ServerState) : mirrors (nextTrack s).1 := by
  cases hq : s.queue with
  | nil =>
    constructor
    · intro t ht
      simp [nextTrack, hq] at ht
    · intro _
      simp [nextTrack, hq]
  | cons t rest =>
    have he : nextTrack s = startTrack { s with queue := rest } t := by
      simp [nextTrack, hq]
    rw [he]
    exact mirrors_startTrack _ t

/-- The stop transition establishes the mirror unconditionally. -/
theorem mirrors_stop (s : ServerState) : mirrors (stopTransition s).1 := by
  constructor
  · intro t ht
    simp [stopTransition] at ht
  · intro _
    rfl

/-- `enqueueOrPlay` preserves the mirror. -/
theorem mirrors_enqueueOrPlay (s : ServerState) (t : Track) (h : mirrors s) :
    mirrors (enqueueOrPlay s t).1 := by
  cases hnp : s.nowPlaying with
  | none =>
    have he : enqueueOrPlay s t = startTrack s t := by
      simp [enqueueOrPlay, hnp]
    rw [he]
    exact mirrors_startTrack s t
  | some np =>
    have he : (enqueueOrPlay s t).1 = { s with queue := s.queue ++ [t] } := by
      simp [enqueueOrPlay, hnp]
    rw [he]
    exact ⟨fun u hu => h.1 u hu, fun hu => h.2 hu⟩

/-- Every WebSocket message preserves the mirror. -/
theorem mirrors_handleWsMessage (radioKey : String) (songs : Songs)
    (s : ServerState) (d : WsMessage) (h : mirrors s) :
    mirrors (handleWsMessage radioKey songs s d).1 := by
  unfold handleWsMessage
  repeat' split
  all_goals
    first
      | exact h
      | exact mirrors_nextTrack s
      | exact mirrors_stop s
      | exact mirrors_enqueueOrPlay s _ h

/-- Every command preserves the mirror. -/
theorem mirrors_runCommand (radioKey : String) (songs : Songs) (s : ServerState)
    (c : Command) (h : mirrors s) : mirrors (runCommand radioKey songs s c).1 := by
  cases c with
  | restPlay body =>
    simp only [runCommand]
    unfold handleRestPlay
    repeat' split
    all_goals first | exact h | exact mirrors_enqueueOrPlay s _ h
  | restStop key =>
    simp only [runCommand]
    unfold handleRestStop
    split
    · exact h
    · exact mirrors_stop s
  | restSkip key =>
    simp only [runCommand]
    unfold handleRestSkip
    split
    · exact h
    · exact mirrors_nextTrack s
  | ws d =>
    exact mirrors_handleWsMessage radioKey songs s d h

/-- A whole command sequence preserves the mirror. -/
theorem mirrors_runCommands (radioKey : String) (songs : Songs)
    (cs : List Command) :
    ∀ s, mirrors s → mirrors (runCommands radioKey songs s cs) := by
  induction cs with
  | nil =>
    intro s h
    exact h
  | cons c rest ih =>
    intro s h
    exact ih _ (mirrors_runCommand radioKey songs s c h)

/-- C10: after any command sequence from startup, the flat state mirrors the
playback state — its action is `"play"` exactly when a track is playing, in
which case its url, text and requester are the playing track's; when nothing
is playing it is the all-null stop object. -/
theorem current_state_mirror (radioKey : String) (songs : Songs)
    (cs : List Command) :
    ((runCommands radioKey songs initialState cs).currentState.action = "play" ↔
      (runCommands radioKey songs initialState cs).nowPlaying ≠ none) ∧
    (∀ t, (runCommands radioKey songs initialState cs).nowPlaying = some t →
      (runCommands radioKey songs initialState cs).currentState =
        { action := "play", url := some t.url, text := some t.text,
          requester := some t.requester }) ∧
    ((runCommands radioKey songs initialState cs).nowPlaying = none →
      (runCommands radioKey songs initialState cs).currentState = stopFlat) := by
  obtain ⟨h1, h2⟩ := mirrors_runCommands radioKey songs cs initialState mirrors_initial
  refine ⟨⟨?_, ?_⟩, h1, h2⟩
  · intro hact hnone
    rw [h2 hnone] at hact
    exact absurd hact (by decide)
  · intro hne
    cases hnp : (runCommands radioKey songs initialState cs).nowPlaying with
    | none => exact absurd hnp hne
    | some t => rw [h1 t hnp]

/-- Witness for C10: after one REST play from startup, the flat state's
action is `"play"`. -/
theorem current_state_mirror_witness :
    (runCommands "" songs0 initialState
      [Command.restPlay { url := some "http://x/a.mp3", query := none,
                          text := some "A side", key := none,
                          requester := some "Alice" }]).currentState.action =
      "play" :=
  (current_state_mirror "" songs0
    [Command.restPlay { url := some "http://x/a.mp3", query := none,
                        text := some "A side", key := none,
                        requester := some "Alice" }]).1.mpr (by decide)

end SeqAudio
